import Mathlib

/-!
Shallow embedding of the executive-assistant scheduling core (main.py):
the classifier gateway, the pending-confirmation store, the confirmation
handler, the slot-search loop and the command dispatcher.

Modelling conventions:
- UTC instants are integers counting minutes (the source moves times by
  `timedelta(minutes=...)` steps only, so minute granularity is exact).
- The external NLU oracle is a function from the attempt number to an
  outcome: an exception or the raw text content of the reply.
- The external calendar provider, timezone resolution and local-time
  formatting are fields of an `Env` record; calendar writes are recorded
  in an explicit list so frame conditions are visible.
- The per-user dictionary `pending_events` holds at most the single key
  "default_user" in the source, so the store is an `Option EventData`.
-/

namespace ExecAssistant

/-- Outcome of one call to the external NLU oracle: either the transport
raised an exception, or it returned the raw text `content`. -/
inductive OracleOutcome
  | err
  | ok (content : String)
deriving DecidableEq

/-- Python substring test `sub in s` on character lists. -/
def isSubstrOf (sub : List Char) : List Char → Bool
  | [] => sub.isEmpty
  | c :: rest => sub.isPrefixOf (c :: rest) || isSubstrOf sub rest

/-- Python `sub in s` on strings. -/
def strContains (s sub : String) : Bool :=
  isSubstrOf sub.data s.data

/-- Python `s.lower()` (ASCII-faithful). -/
def strLower (s : String) : String :=
  ⟨s.data.map Char.toLower⟩

/-- Python `s.strip()`: drop leading and trailing whitespace. -/
def strStrip (s : String) : String :=
  ⟨((s.data.dropWhile Char.isWhitespace).reverse.dropWhile Char.isWhitespace).reverse⟩

/-- The label domain `classify_command` validates the oracle reply against. -/
def validIntents : List String :=
  ["meeting-summary", "create-event", "date-time-interpretation", "confirmation"]

/-- Keyword set routing to "meeting-summary" in `heuristic_classification`. -/
def summaryKeywords : List String :=
  ["summarize", "spent my time", "spend my time",
   "what did my week look like", "last week", "this week", "next week",
   "this month", "last month", "look like"]

/-- Keyword set routing to "create-event" in `heuristic_classification`. -/
def creationKeywords : List String :=
  ["create", "schedule", "book", "set up", "block"]

/-- Exact phrases routing to "confirmation" in `heuristic_classification`. -/
def confirmationPhrases : List String :=
  ["yes", "no", "sure", "okay", "that works", "please schedule", "ok",
   "no thanks", "not good"]

/-- Embeds `heuristic_classification` from main.py: the deterministic intent
fallback used after the second failed oracle attempt. -/
def heuristic_classification (command : String) : String :=
  let cmd_lower := strLower command
  if summaryKeywords.any (fun keyword => strContains cmd_lower keyword) then
    "meeting-summary"
  else if creationKeywords.any (fun keyword => strContains cmd_lower keyword) then
    "create-event"
  else if confirmationPhrases.contains cmd_lower then
    "confirmation"
  else
    "date-time-interpretation"

/-- The second (and final) attempt of `classify_command`: a failed or
invalid oracle reply falls through to `heuristic_classification`.
The source writes this as a recursive call with `attempt=2`. -/
def classify_command_retry (oracle : Nat → OracleOutcome) (command : String) : String :=
  match oracle 2 with
  | OracleOutcome.ok content =>
      let classification := strStrip content
      if validIntents.contains classification then classification
      else heuristic_classification command
  | OracleOutcome.err => heuristic_classification command

/-- Embeds `classify_command` from main.py. Returns the classification together
with the number of oracle calls made (1 or 2). An invalid reply raises
`ValueError`, which the handler treats like an oracle exception. -/
def classify_command (oracle : Nat → OracleOutcome) (command : String) : String × Nat :=
  match oracle 1 with
  | OracleOutcome.ok content =>
      let classification := strStrip content
      if validIntents.contains classification then (classification, 1)
      else (classify_command_retry oracle command, 2)
  | OracleOutcome.err => (classify_command_retry oracle command, 2)

/-- The label domain `classify_user_response` validates against. -/
def validResponses : List String :=
  ["affirmation", "rejection", "unclear"]

/-- Affirmative keyword set of the response fallback heuristic. -/
def affirmWords : List String :=
  ["yes", "sure", "ok", "that works", "please schedule"]

/-- Negative keyword set of the response fallback heuristic. -/
def rejectWords : List String :=
  ["no", "not good", "doesn\x27t work", "nah", "no thanks"]

/-- Embeds `classify_user_response` from main.py. Returns the classification and
the number of oracle calls made. An in-domain check failure maps to
"unclear" without a retry; an oracle exception falls straight to the
keyword heuristic — in both cases exactly one oracle call is made. -/
def classify_user_response (oracle : Nat → OracleOutcome) (response : String) : String × Nat :=
  match oracle 1 with
  | OracleOutcome.ok content =>
      let classification := strLower (strStrip content)
      (if validResponses.contains classification then classification else "unclear", 1)
  | OracleOutcome.err =>
      let resp_lower := strLower response
      (if affirmWords.any (fun word => strContains resp_lower word) then "affirmation"
       else if rejectWords.any (fun word => strContains resp_lower word) then "rejection"
       else "unclear", 1)

/-- A calendar event as returned by the external provider list call. -/
structure CalEvent where
  id : String
  summary : String
  start : Int
  stop : Int
deriving DecidableEq

/-- One attempted calendar insert (arguments of `create_calendar_event`). -/
structure Write where
  summary : String
  start_time : Int
  end_time : Int
  timezone : String
deriving DecidableEq

/-- A structured reply of a handler: `{"message": ...}`, `{"error": ...}`
or the raw result dict of `create_calendar_event` in the no-conflict path. -/
inductive Reply
  | message (text : String)
  | error (text : String)
  | createResult (success : Bool)
deriving DecidableEq

/-- The event fields the extraction oracle provides for a creation command,
already converted to a UTC start instant (the date/time/timezone arithmetic
is done by external libraries in the source). -/
structure Extraction where
  title : String
  start_utc : Int
  duration_minutes : Int
deriving DecidableEq

/-- Outcome of the extraction step in `interpret_and_create_event`: no JSON
object found in the oracle reply, required fields missing, or success. -/
inductive ExtractOutcome
  | noJson
  | incomplete
  | ok (info : Extraction)
deriving DecidableEq

/-- The dict stored in `pending_events`: the creation path stores no
"increments_tried" key (hence `Option Nat`, read back with `.get(_, 0)`),
the slot search stores it explicitly. -/
structure EventData where
  title : String
  start_time : Int
  end_time : Int
  user_timezone : String
  duration_minutes : Int
  increments_tried : Option Nat
deriving DecidableEq

/-- External collaborators of one request: the calendar provider (list and
insert), timezone resolution, local-time formatting, the extraction oracle,
and the replies of the two oracle-dominated handlers that touch neither the
pending store nor the calendar write path (`meeting_summary_command` and
`interpret_command_date_time`). -/
structure Env where
  listEvents : Int → Int → List CalEvent
  insertOk : Bool
  userTimezone : String
  fmtLocal : Int → String → String
  extract : String → ExtractOutcome
  summaryReply : String → Reply
  dateTimeReply : String → Reply

/-- Embeds `create_calendar_event` from main.py: one insert attempt against the
external calendar; returns the success flag and records the attempt. -/
def create_calendar_event (env : Env) (summary : String) (start_time end_time : Int)
    (user_timezone : String) : Bool × List Write :=
  (env.insertOk, [⟨summary, start_time, end_time, user_timezone⟩])

/-- Result of the `while True` probe loop in `suggest_alternative_time`. -/
inductive SearchOutcome
  | found (start : Int) (counter : Nat)
  | exhausted
deriving DecidableEq

/-- The `while True` loop of `suggest_alternative_time`: probe the window
starting at `suggested_start`; a free window is accepted with counter value
`increments_tried + 1`; otherwise step forward 30 minutes, increment the
counter, and give up once it passes 10. -/
def searchLoop (env : Env) (duration_minutes : Int) (suggested_start : Int)
    (increments_tried : Nat) : SearchOutcome :=
  if (env.listEvents suggested_start (suggested_start + duration_minutes)).isEmpty then
    SearchOutcome.found suggested_start (increments_tried + 1)
  else if increments_tried + 1 > 10 then
    SearchOutcome.exhausted
  else
    searchLoop env duration_minutes (suggested_start + 30) (increments_tried + 1)
termination_by 11 - increments_tried
decreasing_by omega

/-- Terminal message of the exhausted slot search. -/
def exhaustionMessage : String :=
  "I\x27m having trouble finding a free slot. Please try a different time."

/-- Embeds `suggest_alternative_time` from main.py. Takes the proposal being
negotiated and the current store content; on success the store is mutated
with the new window and counter, on exhaustion it is left as it was. -/
def suggest_alternative_time (env : Env) (event_data : EventData)
    (pending : Option EventData) : Reply × Option EventData :=
  let increments_tried := event_data.increments_tried.getD 0
  let suggested_start := event_data.start_time + 30 * ((increments_tried : Int) + 1)
  match searchLoop env event_data.duration_minutes suggested_start increments_tried with
  | SearchOutcome.found s counter =>
      (Reply.message ("Your requested time was booked. How about " ++
         env.fmtLocal s event_data.user_timezone ++ "?"),
       some { event_data with
                start_time := s,
                end_time := s + event_data.duration_minutes,
                increments_tried := some counter })
  | SearchOutcome.exhausted =>
      (Reply.message exhaustionMessage, pending)

/-- Which classifier functions a request actually invoked. -/
inductive ClassifierCall
  | intent
  | response
deriving DecidableEq

/-- Reply when a confirmation turn arrives with an empty store. -/
def nothingPendingMessage : String :=
  "There\x27s nothing pending to confirm."

/-- Reply of the unclear branch of `handle_confirmation`. -/
def unclearMessage : String :=
  "I didn\x27t understand your response. Would you like to schedule anyway or find another time?"

/-- Embeds `handle_confirmation` from main.py. Returns the reply, the new store
content, the calendar writes attempted, and the classifier calls made.
Note the source deletes the pending entry before checking the write result. -/
def handle_confirmation (env : Env) (oracle : Nat → OracleOutcome) (command : String)
    (pending : Option EventData) :
    Reply × Option EventData × List Write × List ClassifierCall :=
  match pending with
  | none => (Reply.message nothingPendingMessage, none, [], [])
  | some event_data =>
      let classification := (classify_user_response oracle command).1
      if classification = "affirmation" then
        let result := create_calendar_event env event_data.title event_data.start_time
          event_data.end_time event_data.user_timezone
        if result.1 then
          (Reply.message ("Scheduled \x27" ++ event_data.title ++ "\x27 on " ++
             env.fmtLocal event_data.start_time event_data.user_timezone),
           none, result.2, [ClassifierCall.response])
        else
          (Reply.error "Failed to schedule event.", none, result.2, [ClassifierCall.response])
      else if classification = "rejection" then
        let suggestion := suggest_alternative_time env event_data pending
        (suggestion.1, suggestion.2, [], [ClassifierCall.response])
      else
        (Reply.message unclearMessage, pending, [], [ClassifierCall.response])

/-- Conflict question returned when the proposed window overlaps. -/
def overlapMessage : String :=
  "There\x27s an overlap with another event. Would you still like to schedule it?"

/-- Embeds `interpret_and_create_event` from main.py: extract the event, list
events overlapping the proposed window; on overlap store a pending proposal
and ask, otherwise insert immediately and return the raw result. -/
def interpret_and_create_event (env : Env) (command : String)
    (pending : Option EventData) : Reply × Option EventData × List Write :=
  match env.extract command with
  | ExtractOutcome.noJson =>
      (Reply.error "Failed to parse valid JSON from GPT response", pending, [])
  | ExtractOutcome.incomplete =>
      (Reply.error "Incomplete event information from GPT", pending, [])
  | ExtractOutcome.ok info =>
      let start_time := info.start_utc
      let end_time := info.start_utc + info.duration_minutes
      let overlapping := env.listEvents start_time end_time
      if !overlapping.isEmpty then
        (Reply.message overlapMessage,
         some ⟨info.title, start_time, end_time, env.userTimezone,
               info.duration_minutes, none⟩, [])
      else
        let result := create_calendar_event env info.title start_time end_time env.userTimezone
        (Reply.createResult result.1, pending, result.2)

/-- Embeds `parse_with_classification` from main.py: classify the raw command and
dispatch to the matching handler. The final branch is the unreachable
"could not understand" fallthrough of the source. -/
def parse_with_classification (env : Env) (oracleIntent oracleResponse : Nat → OracleOutcome)
    (command : String) (pending : Option EventData) :
    Reply × Option EventData × List Write × List ClassifierCall :=
  let classification := (classify_command oracleIntent command).1
  if classification = "meeting-summary" then
    (env.summaryReply command, pending, [], [ClassifierCall.intent])
  else if classification = "create-event" then
    let result := interpret_and_create_event env command pending
    (result.1, result.2.1, result.2.2, [ClassifierCall.intent])
  else if classification = "confirmation" then
    let result := handle_confirmation env oracleResponse command pending
    (result.1, result.2.1, result.2.2.1, ClassifierCall.intent :: result.2.2.2)
  else if classification = "date-time-interpretation" then
    (env.dateTimeReply command, pending, [], [ClassifierCall.intent])
  else
    (Reply.message "I\x27m having trouble understanding your request. Could you try rephrasing it?",
     pending, [], [ClassifierCall.intent])

/-! ### Concrete fixtures used by witnesses and counterexamples -/

/-- An oracle whose transport always raises. -/
def errOracle : Nat → OracleOutcome := fun _ => OracleOutcome.err

/-- An oracle that always answers "affirmation". -/
def affirmOracle : Nat → OracleOutcome := fun _ => OracleOutcome.ok "affirmation"

/-- An oracle that always answers "rejection". -/
def rejectOracle : Nat → OracleOutcome := fun _ => OracleOutcome.ok "rejection"

/-- An oracle that always answers "create-event". -/
def createIntentOracle : Nat → OracleOutcome := fun _ => OracleOutcome.ok "create-event"

/-- A pending proposal as the creation path stores it (no counter key). -/
def sampleEvent : EventData := ⟨"Team sync", 0, 30, "UTC", 30, none⟩

/-- An arbitrary calendar event used to populate busy windows. -/
def busyCal : CalEvent := ⟨"ev1", "Busy", 0, 30⟩

/-- An environment with a free calendar and a working insert. -/
def baseEnv : Env where
  listEvents := fun _ _ => []
  insertOk := true
  userTimezone := "UTC"
  fmtLocal := fun _ _ => "LOCAL"
  extract := fun _ => ExtractOutcome.noJson
  summaryReply := fun _ => Reply.message "SUMMARY"
  dateTimeReply := fun _ => Reply.message "DATETIME"

/-- An environment whose calendar insert fails. -/
def failEnv : Env := { baseEnv with insertOk := false }

/-- An environment whose calendar is busy at every window. -/
def busyEnv : Env := { baseEnv with listEvents := fun _ _ => [busyCal] }

/-- An environment busy at every probe window strictly before minute 330:
from a fresh proposal at minute 0 the slot search rejects the candidates
30, 60, ..., 300 and accepts 330 on its eleventh probe. -/
def env11 : Env := { baseEnv with listEvents := fun a _ => if a < 330 then [busyCal] else [] }

/-- An environment busy exactly at the first three candidate starts of a
fresh proposal at minute 0, free from the fourth candidate on. -/
def envFourth : Env :=
  { baseEnv with listEvents := fun a _ => if a = 30 ∨ a = 60 ∨ a = 90 then [busyCal] else [] }

/-- An environment whose extraction oracle yields a fixed event and whose
calendar is busy exactly on the window of that event. -/
def extractEnv : Env :=
  { baseEnv with
      listEvents := fun a _ => if a = 100 then [busyCal] else [],
      extract := fun _ => ExtractOutcome.ok ⟨"Sync", 100, 30⟩ }

/-- The affirmative keyword set exactly as the specification text lists it,
for comparison with `affirmWords` from the source. -/
def specAffirmWords : List String := ["yes", "sure", "ok", "that works"]

/-- The negative keyword set exactly as the specification text lists it,
for comparison with `rejectWords` from the source. -/
def specRejectWords : List String := ["no", "not good", "no thanks"]

/-! ### General lemmas about the embedded functions -/

theorem isEmpty_false_of_ne {α : Type} {l : List α} (h : l ≠ []) : l.isEmpty = false := by
  cases l with
  | nil => exact absurd rfl h
  | cons a t => rfl

theorem heuristic_classification_valid (command : String) :
    heuristic_classification command ∈ validIntents := by
  simp only [heuristic_classification]
  split_ifs <;> decide

theorem classify_command_retry_valid (oracle : Nat → OracleOutcome) (command : String) :
    classify_command_retry oracle command ∈ validIntents := by
  cases ho : oracle 2 with
  | err => simp [classify_command_retry, ho, heuristic_classification_valid command]
  | ok content =>
      by_cases h : strStrip content ∈ validIntents
      · simp [classify_command_retry, ho, h]
      · simp [classify_command_retry, ho, h, heuristic_classification_valid command]

theorem classify_command_valid (oracle : Nat → OracleOutcome) (command : String) :
    (classify_command oracle command).1 ∈ validIntents := by
  cases ho : oracle 1 with
  | err => simp [classify_command, ho, classify_command_retry_valid oracle command]
  | ok content =>
      by_cases h : strStrip content ∈ validIntents
      · simp [classify_command, ho, h]
      · simp [classify_command, ho, h, classify_command_retry_valid oracle command]

theorem classify_command_calls_le (oracle : Nat → OracleOutcome) (command : String) :
    (classify_command oracle command).2 ≤ 2 := by
  cases ho : oracle 1 with
  | err => simp [classify_command, ho]
  | ok content =>
      by_cases h : strStrip content ∈ validIntents
      · simp [classify_command, ho, h]
      · simp [classify_command, ho, h]

theorem classify_user_response_calls (oracle : Nat → OracleOutcome) (response : String) :
    (classify_user_response oracle response).2 = 1 := by
  cases ho : oracle 1 with
  | err => simp only [classify_user_response, ho]
  | ok content => simp only [classify_user_response, ho]

theorem classify_user_response_valid (oracle : Nat → OracleOutcome) (response : String) :
    (classify_user_response oracle response).1 ∈ validResponses := by
  cases ho : oracle 1 with
  | err =>
      simp only [classify_user_response, ho]
      split_ifs <;> decide
  | ok content =>
      simp only [classify_user_response, ho]
      split_ifs with h
      · simpa using h
      · decide

theorem handle_confirmation_calls (env : Env) (oracle : Nat → OracleOutcome)
    (command : String) (ed : EventData) :
    (handle_confirmation env oracle command (some ed)).2.2.2 = [ClassifierCall.response] := by
  simp only [handle_confirmation]
  split_ifs <;> rfl

theorem searchLoop_found_ge_aux (env : Env) (d : Int) :
    ∀ (n : Nat) (st : Int) (it : Nat) (s : Int) (c : Nat), 11 - it ≤ n →
      searchLoop env d st it = SearchOutcome.found s c → st ≤ s ∧ c ≤ max (it + 1) 11 := by
  intro n
  induction n with
  | zero =>
      intro st it s c hle h
      unfold searchLoop at h
      split at h
      · simp only [SearchOutcome.found.injEq] at h
        omega
      · split at h
        · exact absurd h (by simp)
        · omega
  | succ n ih =>
      intro st it s c hle h
      unfold searchLoop at h
      split at h
      · simp only [SearchOutcome.found.injEq] at h
        omega
      · split at h
        · exact absurd h (by simp)
        · rename_i hbound
          have hrec := ih (st + 30) (it + 1) s c (by omega) h
          constructor
          · omega
          · have : it + 1 + 1 ≤ 11 := by omega
            omega

theorem searchLoop_found_ge (env : Env) (d : Int) (st : Int) (it : Nat) (s : Int) (c : Nat)
    (h : searchLoop env d st it = SearchOutcome.found s c) : st ≤ s :=
  (searchLoop_found_ge_aux env d (11 - it) st it s c (le_refl _) h).1

theorem searchLoop_found_counter_le (env : Env) (d : Int) (st : Int) (it : Nat) (s : Int)
    (c : Nat) (hit : it ≤ 10) (h : searchLoop env d st it = SearchOutcome.found s c) :
    c ≤ 11 := by
  have := (searchLoop_found_ge_aux env d (11 - it) st it s c (le_refl _) h).2
  omega

theorem searchLoop_all_busy_aux (env : Env) (d : Int)
    (hbusy : ∀ a b, env.listEvents a b ≠ []) :
    ∀ (n : Nat) (st : Int) (it : Nat), 11 - it ≤ n →
      searchLoop env d st it = SearchOutcome.exhausted := by
  intro n
  induction n with
  | zero =>
      intro st it hle
      unfold searchLoop
      rw [isEmpty_false_of_ne (hbusy st (st + d))]
      simp only [Bool.false_eq_true, if_false]
      rw [if_pos (by omega)]
  | succ n ih =>
      intro st it hle
      unfold searchLoop
      rw [isEmpty_false_of_ne (hbusy st (st + d))]
      simp only [Bool.false_eq_true, if_false]
      by_cases hb : it + 1 > 10
      · rw [if_pos hb]
      · rw [if_neg hb]
        exact ih (st + 30) (it + 1) (by omega)

theorem searchLoop_all_busy (env : Env) (d : Int)
    (hbusy : ∀ a b, env.listEvents a b ≠ []) (st : Int) (it : Nat) :
    searchLoop env d st it = SearchOutcome.exhausted :=
  searchLoop_all_busy_aux env d hbusy (11 - it) st it (le_refl _)

theorem searchLoop_step_busy (env : Env) (d st : Int) (it : Nat)
    (hb : env.listEvents st (st + d) ≠ []) (hit : it + 1 ≤ 10) :
    searchLoop env d st it = searchLoop env d (st + 30) (it + 1) := by
  conv_lhs => unfold searchLoop
  rw [isEmpty_false_of_ne hb]
  simp only [Bool.false_eq_true, if_false]
  rw [if_neg (by omega)]

theorem searchLoop_step_free (env : Env) (d st : Int) (it : Nat)
    (hf : env.listEvents st (st + d) = []) :
    searchLoop env d st it = SearchOutcome.found st (it + 1) := by
  conv_lhs => unfold searchLoop
  rw [hf]
  simp

/-! ### Claims -/

/-- C3 counterexample: the claim says a failing first oracle call is
followed by exactly one more call in both gateway operations, but
`classify_user_response` makes exactly one oracle call even when that call
raises: at input "hello" with an always-failing oracle the call count is 1,
not 2. -/
theorem C3_response_single_call_counterexample :
    (classify_user_response errOracle "hello").2 = 1 ∧
    ¬ (classify_user_response errOracle "hello").2 = 2 := by
  decide

/-- C3 (amended): both gateway operations are total (they always return a
value of the enumerated set) and make at most two oracle calls.
`classify_command` retries exactly once when the first call errors or
returns an out-of-domain label; `classify_user_response` always makes
exactly one oracle call (an invalid reply maps to "unclear" without a
retry, an error falls straight to the keyword heuristic). -/
theorem C3_gateway_total_and_call_bounds (oracle : Nat → OracleOutcome)
    (command response : String) :
    (classify_command oracle command).2 ≤ 2 ∧
    (classify_command oracle command).1 ∈ validIntents ∧
    (oracle 1 = OracleOutcome.err → (classify_command oracle command).2 = 2) ∧
    (∀ content, oracle 1 = OracleOutcome.ok content → strStrip content ∉ validIntents →
       (classify_command oracle command).2 = 2) ∧
    (classify_user_response oracle response).2 = 1 ∧
    (classify_user_response oracle response).1 ∈ validResponses := by
  refine ⟨classify_command_calls_le oracle command, classify_command_valid oracle command,
    ?_, ?_, classify_user_response_calls oracle response,
    classify_user_response_valid oracle response⟩
  · intro h1
    simp [classify_command, h1]
  · intro content h1 hinvalid
    simp [classify_command, h1, hinvalid]

/-- C3 witness: the amended statement at a concrete erring oracle. -/
theorem C3_witness : (classify_command errOracle "hello").2 = 2 :=
  (C3_gateway_total_and_call_bounds errOracle "hello" "hello").2.2.1 rfl

/-- C9 counterexample: at the input "nah", which contains none of the
keywords the claim enumerates for either class, the fallback in
`classify_user_response` returns "rejection", not "unclear" as the claim
demands, because the source checks the extra keyword "nah". -/
theorem C9_fallback_counterexample :
    specAffirmWords.any (fun word => strContains (strLower "nah") word) = false ∧
    specRejectWords.any (fun word => strContains (strLower "nah") word) = false ∧
    (classify_user_response errOracle "nah").1 = "rejection" := by
  decide

/-- C9 (amended): the deterministic response fallback maps any text
containing "yes", "sure", "ok", "that works" or "please schedule" to
Affirmation; any other text containing "no", "not good", "doesn\x27t work",
"nah" or "no thanks" to Rejection; and every remaining text to Unclear
(the affirmative set is checked first). -/
theorem C9_fallback_full_keyword_mapping (response : String) :
    (affirmWords.any (fun word => strContains (strLower response) word) = true →
       (classify_user_response errOracle response).1 = "affirmation") ∧
    (affirmWords.any (fun word => strContains (strLower response) word) = false →
     rejectWords.any (fun word => strContains (strLower response) word) = true →
       (classify_user_response errOracle response).1 = "rejection") ∧
    (affirmWords.any (fun word => strContains (strLower response) word) = false →
     rejectWords.any (fun word => strContains (strLower response) word) = false →
       (classify_user_response errOracle response).1 = "unclear") := by
  refine ⟨?_, ?_, ?_⟩
  · intro ha
    simp [classify_user_response, errOracle, ha]
  · intro ha hr
    simp [classify_user_response, errOracle, ha, hr]
  · intro ha hr
    simp [classify_user_response, errOracle, ha, hr]

/-- C9 witness: the amended mapping evaluated at the concrete input "nah". -/
theorem C9_witness : (classify_user_response errOracle "nah").1 = "rejection" :=
  (C9_fallback_full_keyword_mapping "nah").2.1 (by decide) (by decide)

/-- C10 (confirmed): with both oracle attempts failing, any command text
matching no summary keyword, no creation keyword and no confirmation
phrase is classified "date-time-interpretation" by the fallback heuristic. -/
theorem C10_no_keywords_datetime_fallback (oracle : Nat → OracleOutcome) (command : String)
    (ho1 : oracle 1 = OracleOutcome.err) (ho2 : oracle 2 = OracleOutcome.err)
    (hsum : summaryKeywords.any (fun keyword => strContains (strLower command) keyword) = false)
    (hcre : creationKeywords.any (fun keyword => strContains (strLower command) keyword) = false)
    (hcon : confirmationPhrases.contains (strLower command) = false) :
    (classify_command oracle command).1 = "date-time-interpretation" := by
  have hcon2 : strLower command ∉ confirmationPhrases := by simpa using hcon
  simp [classify_command, classify_command_retry, heuristic_classification,
    ho1, ho2, hsum, hcre, hcon2]

/-- C10 witness: the fallback at the concrete command "hello". -/
theorem C10_witness : (classify_command errOracle "hello").1 = "date-time-interpretation" :=
  C10_no_keywords_datetime_fallback errOracle "hello" rfl rfl (by decide) (by decide) (by decide)

/-- C1 counterexample: with a pending proposal present and the turn "yes",
an intent oracle answering "create-event" routes the turn to the creation
handler: only the intent classifier runs and `classify_user_response` is
never consulted, so the pending proposal does not determine routing. -/
theorem C1_intent_routing_counterexample :
    (parse_with_classification baseEnv createIntentOracle errOracle "yes"
        (some sampleEvent)).2.2.2 = [ClassifierCall.intent] ∧
    ClassifierCall.response ∉
      (parse_with_classification baseEnv createIntentOracle errOracle "yes"
        (some sampleEvent)).2.2.2 := by
  decide

/-- C1 (amended): with a pending proposal present, a turn is run through
`classify_user_response` exactly when intent classification returns
"confirmation"; routing is decided by the output of the intent classifier, and
the pending proposal is consulted only inside the confirmation branch. -/
theorem C1_response_classification_iff_confirmation_intent (env : Env)
    (oracleIntent oracleResponse : Nat → OracleOutcome) (command : String) (ed : EventData) :
    ClassifierCall.response ∈
        (parse_with_classification env oracleIntent oracleResponse command (some ed)).2.2.2 ↔
      (classify_command oracleIntent command).1 = "confirmation" := by
  simp only [parse_with_classification]
  split_ifs with h1 h2 h3 h4
  · rw [h1]; exact iff_of_false (by simp) (by decide)
  · rw [h2]; exact iff_of_false (by simp) (by decide)
  · rw [handle_confirmation_calls]
    simp [h3]
  · rw [h4]; exact iff_of_false (by simp) (by decide)
  · simp [h3]

/-- C2 counterexample: with a failing calendar insert and an affirmation
turn on a concrete pending proposal, the error is surfaced but the pending
entry is deleted (the store ends empty), contradicting the claim that the
proposal state is left unchanged on calendar failure. -/
theorem C2_failed_write_clears_pending_counterexample :
    (handle_confirmation failEnv affirmOracle "yes" (some sampleEvent)).1 =
      Reply.error "Failed to schedule event." ∧
    (handle_confirmation failEnv affirmOracle "yes" (some sampleEvent)).2.1 = none := by
  decide

/-- C2 (amended): on an Affirmation-classified turn with a pending
proposal, a failed calendar write surfaces an error, but the pending entry
is deleted unconditionally — deletion happens before the success check, so
the proposal is removed whether or not the write succeeded. -/
theorem C2_failed_write_error_and_unconditional_delete (env : Env)
    (oracle : Nat → OracleOutcome) (command : String) (ed : EventData)
    (hclass : (classify_user_response oracle command).1 = "affirmation")
    (hfail : env.insertOk = false) :
    handle_confirmation env oracle command (some ed) =
      (Reply.error "Failed to schedule event.", none,
       [⟨ed.title, ed.start_time, ed.end_time, ed.user_timezone⟩],
       [ClassifierCall.response]) := by
  simp [handle_confirmation, create_calendar_event, hclass, hfail]

/-- C2 witness: the amended statement at a concrete failing environment. -/
theorem C2_witness :
    handle_confirmation failEnv affirmOracle "yes" (some sampleEvent) =
      (Reply.error "Failed to schedule event.", none,
       [⟨"Team sync", 0, 30, "UTC"⟩], [ClassifierCall.response]) :=
  C2_failed_write_error_and_unconditional_delete failEnv affirmOracle "yes" sampleEvent
    (by decide) rfl

/-- C4 counterexample: from a fresh proposal (counter absent, read as 0)
whose first ten candidate slots are busy and whose eleventh is free, the
slot search succeeds on the eleventh probe and stores
`increments_tried = 11`, exceeding the claimed ceiling of 10. -/
theorem C4_counter_exceeds_ceiling_counterexample :
    (suggest_alternative_time env11 sampleEvent (some sampleEvent)).2 =
      some ⟨"Team sync", 330, 360, "UTC", 30, some 11⟩ := by
  simp [suggest_alternative_time, searchLoop, env11, baseEnv, sampleEvent]

/-- C4 (amended): from a proposal whose counter is at most 10, the slot
search terminates, and it either reports exhaustion leaving the store as it
was, or stores a counter of at most 11 — the ceiling of 10 can be exceeded
by exactly one, because a probe made at in-call counter value 10 stores 11. -/
theorem C4_counter_bounded_by_eleven (env : Env) (ed : EventData)
    (pending : Option EventData) (hit : ed.increments_tried.getD 0 ≤ 10) :
    ((suggest_alternative_time env ed pending).1 = Reply.message exhaustionMessage ∧
     (suggest_alternative_time env ed pending).2 = pending) ∨
    (∃ ed2, (suggest_alternative_time env ed pending).2 = some ed2 ∧
       ed2.increments_tried.getD 0 ≤ 11) := by
  cases hs : searchLoop env ed.duration_minutes
      (ed.start_time + 30 * ((ed.increments_tried.getD 0 : Int) + 1))
      (ed.increments_tried.getD 0) with
  | exhausted =>
      left
      constructor <;> simp [suggest_alternative_time, hs]
  | found s c =>
      right
      refine Exists.intro ?ed2 ?h2
      case ed2 =>
        exact { ed with
                  start_time := s,
                  end_time := s + ed.duration_minutes,
                  increments_tried := some c }
      case h2 =>
        refine ⟨?_, ?_⟩
        · simp [suggest_alternative_time, hs]
        · simpa using searchLoop_found_counter_le env ed.duration_minutes _ _ s c hit hs

/-- C4 witness: the amended statement at a fresh proposal over a free
calendar, where the first probe succeeds and stores counter 1. -/
theorem C4_witness :
    ((suggest_alternative_time baseEnv sampleEvent none).1 = Reply.message exhaustionMessage ∧
     (suggest_alternative_time baseEnv sampleEvent none).2 = none) ∨
    (∃ ed2, (suggest_alternative_time baseEnv sampleEvent none).2 = some ed2 ∧
       ed2.increments_tried.getD 0 ≤ 11) :=
  C4_counter_bounded_by_eleven baseEnv sampleEvent none (by decide)

/-- C6 (confirmed): on a Rejection-classified turn, if every calendar
window is occupied, the confirmation handler returns the exhaustion
message, attempts no calendar write, and leaves the stored pending
proposal exactly as it was. -/
theorem C6_all_busy_exhaustion_no_write_retains_proposal (env : Env)
    (oracle : Nat → OracleOutcome) (command : String) (ed : EventData)
    (hbusy : ∀ a b, env.listEvents a b ≠ [])
    (hrej : (classify_user_response oracle command).1 = "rejection") :
    handle_confirmation env oracle command (some ed) =
      (Reply.message exhaustionMessage, some ed, [], [ClassifierCall.response]) := by
  have hex := searchLoop_all_busy env ed.duration_minutes hbusy
    (ed.start_time + 30 * ((ed.increments_tried.getD 0 : Int) + 1))
    (ed.increments_tried.getD 0)
  simp only [handle_confirmation, suggest_alternative_time, hrej]
  rw [if_neg (by decide)]
  simp [hex]

/-- C6 witness: an all-busy calendar with a concrete rejection turn. -/
theorem C6_witness :
    handle_confirmation busyEnv rejectOracle "no" (some sampleEvent) =
      (Reply.message exhaustionMessage, some sampleEvent, [], [ClassifierCall.response]) :=
  C6_all_busy_exhaustion_no_write_retains_proposal busyEnv rejectOracle "no" sampleEvent
    (fun a b => by simp [busyEnv, baseEnv]) (by decide)

/-- C7 (confirmed): whenever the slot search succeeds, the stored proposal
start is the found candidate, which is strictly later than the start it
replaced (the first candidate already sits at least 30 minutes forward). -/
theorem C7_successful_search_strictly_increases_start (env : Env) (ed : EventData)
    (pending : Option EventData) (s : Int) (c : Nat)
    (h : searchLoop env ed.duration_minutes
           (ed.start_time + 30 * ((ed.increments_tried.getD 0 : Int) + 1))
           (ed.increments_tried.getD 0) = SearchOutcome.found s c) :
    (suggest_alternative_time env ed pending).2 =
      some { ed with start_time := s, end_time := s + ed.duration_minutes,
                     increments_tried := some c } ∧
    ed.start_time < s := by
  constructor
  · simp [suggest_alternative_time, h]
  · have hge := searchLoop_found_ge env ed.duration_minutes _ _ s c h
    have hnn : (0 : Int) ≤ (ed.increments_tried.getD 0 : Int) := Int.natCast_nonneg _
    omega

/-- C7 witness: over a free calendar the first candidate (30 minutes
forward) is stored and is strictly later than the replaced start. -/
theorem C7_witness :
    (suggest_alternative_time baseEnv sampleEvent none).2 =
      some ⟨"Team sync", 30, 60, "UTC", 30, some 1⟩ ∧
    (0 : Int) < 30 :=
  C7_successful_search_strictly_increases_start baseEnv sampleEvent none 30 1
    (by simp [searchLoop, baseEnv, sampleEvent])

/-- C8 (confirmed): on a Rejection-classified turn with a fresh pending
proposal (no counter stored yet), when the first three 30-minute candidates
are occupied and the fourth is free, the handler suggests the fourth
candidate (proposed start + 120 minutes) and stores the proposal with the
new window and `increments_tried = 4`. -/
theorem C8_fourth_candidate_free_counter_four (env : Env)
    (oracle : Nat → OracleOutcome) (command : String) (ed : EventData)
    (hfresh : ed.increments_tried = none)
    (h1 : env.listEvents (ed.start_time + 30) (ed.start_time + 30 + ed.duration_minutes) ≠ [])
    (h2 : env.listEvents (ed.start_time + 60) (ed.start_time + 60 + ed.duration_minutes) ≠ [])
    (h3 : env.listEvents (ed.start_time + 90) (ed.start_time + 90 + ed.duration_minutes) ≠ [])
    (h4 : env.listEvents (ed.start_time + 120) (ed.start_time + 120 + ed.duration_minutes) = [])
    (hrej : (classify_user_response oracle command).1 = "rejection") :
    handle_confirmation env oracle command (some ed) =
      (Reply.message ("Your requested time was booked. How about " ++
         env.fmtLocal (ed.start_time + 120) ed.user_timezone ++ "?"),
       some { ed with
                start_time := ed.start_time + 120,
                end_time := ed.start_time + 120 + ed.duration_minutes,
                increments_tried := some 4 },
       [], [ClassifierCall.response]) := by
  have key : searchLoop env ed.duration_minutes (ed.start_time + 30) 0 =
      SearchOutcome.found (ed.start_time + 120) 4 := by
    rw [searchLoop_step_busy env _ _ 0 h1 (by omega)]
    rw [show ed.start_time + 30 + 30 = ed.start_time + 60 from by ring]
    rw [searchLoop_step_busy env _ _ 1 h2 (by omega)]
    rw [show ed.start_time + 60 + 30 = ed.start_time + 90 from by ring]
    rw [searchLoop_step_busy env _ _ 2 h3 (by omega)]
    rw [show ed.start_time + 90 + 30 = ed.start_time + 120 from by ring]
    rw [searchLoop_step_free env _ _ 3 h4]
  have hsug : suggest_alternative_time env ed (some ed) =
      (Reply.message ("Your requested time was booked. How about " ++
         env.fmtLocal (ed.start_time + 120) ed.user_timezone ++ "?"),
       some { ed with
                start_time := ed.start_time + 120,
                end_time := ed.start_time + 120 + ed.duration_minutes,
                increments_tried := some 4 }) := by
    simp only [suggest_alternative_time, hfresh, Option.getD_none]
    rw [show ed.start_time + 30 * (((0 : Nat) : Int) + 1) = ed.start_time + 30 from by norm_num]
    rw [key]
  simp only [handle_confirmation, hrej]
  rw [if_neg (by decide)]
  simp [hsug]

/-- C8 witness: a concrete calendar busy exactly at the first three
candidates of the fresh sample proposal. -/
theorem C8_witness :
    handle_confirmation envFourth rejectOracle "no" (some sampleEvent) =
      (Reply.message "Your requested time was booked. How about LOCAL?",
       some ⟨"Team sync", 120, 150, "UTC", 30, some 4⟩,
       [], [ClassifierCall.response]) :=
  C8_fourth_candidate_free_counter_four envFourth rejectOracle "no" sampleEvent rfl
    (by decide) (by decide) (by decide) (by decide) (by decide)

/-- C5 (confirmed): a creation request whose proposed window overlaps at
least one existing event stores a pending proposal carrying exactly the
proposed window and returns the conflict question with no calendar write;
a subsequent Affirmation-classified turn commits precisely the originally
proposed, unmodified window via a successful calendar write and clears the
store. -/
theorem C5_conflict_stores_then_affirmation_commits_original (env1 env2 : Env)
    (oracleResponse : Nat → OracleOutcome) (command1 command2 : String)
    (pending0 : Option EventData) (info : Extraction)
    (hx : env1.extract command1 = ExtractOutcome.ok info)
    (hoverlap : env1.listEvents info.start_utc (info.start_utc + info.duration_minutes) ≠ [])
    (haff : (classify_user_response oracleResponse command2).1 = "affirmation")
    (hok : env2.insertOk = true) :
    interpret_and_create_event env1 command1 pending0 =
      (Reply.message overlapMessage,
       some ⟨info.title, info.start_utc, info.start_utc + info.duration_minutes,
             env1.userTimezone, info.duration_minutes, none⟩, []) ∧
    handle_confirmation env2 oracleResponse command2
        (some ⟨info.title, info.start_utc, info.start_utc + info.duration_minutes,
               env1.userTimezone, info.duration_minutes, none⟩) =
      (Reply.message ("Scheduled \x27" ++ info.title ++ "\x27 on " ++
         env2.fmtLocal info.start_utc env1.userTimezone),
       none,
       [⟨info.title, info.start_utc, info.start_utc + info.duration_minutes,
         env1.userTimezone⟩],
       [ClassifierCall.response]) := by
  constructor
  · simp only [interpret_and_create_event, hx]
    rw [isEmpty_false_of_ne hoverlap]
    simp
  · simp [handle_confirmation, create_calendar_event, haff, hok]

/-- C5 witness: a concrete conflicting creation followed by a concrete
affirmation that writes the original window. -/
theorem C5_witness :
    interpret_and_create_event extractEnv "schedule sync" none =
      (Reply.message overlapMessage,
       some ⟨"Sync", 100, 130, "UTC", 30, none⟩, []) ∧
    handle_confirmation baseEnv affirmOracle "yes"
        (some ⟨"Sync", 100, 130, "UTC", 30, none⟩) =
      (Reply.message "Scheduled \x27Sync\x27 on LOCAL", none,
       [⟨"Sync", 100, 130, "UTC"⟩], [ClassifierCall.response]) :=
  C5_conflict_stores_then_affirmation_commits_original extractEnv baseEnv affirmOracle
    "schedule sync" "yes" none ⟨"Sync", 100, 30⟩ rfl (by decide) (by decide) rfl

end ExecAssistant
